import Mathlib

/-!
Verification of the note-service request-validation and query-construction
pipeline (crates `model`, `service`, `repository`).

Rust strings are embedded as `List Char`; `&str` library operations
(`trim`, `split(',')`, `u64::from_str`, `len`) are modelled explicitly
below.  Fallible Rust functions returning `Result<T, ServiceError>` become
`Except ServiceError T`.  `u64` values are embedded as `Nat` (the parser
enforces the `< 2 ^ 64` bound exactly where the source's `u64` parse does;
no later arithmetic in the modelled code can overflow `u64`).
-/

namespace RustNotes

/-- A Rust `&str` / `String`, embedded as its list of characters. -/
abbrev Str := List Char

/-- The Unicode `White_Space` code points: the set recognised by Rust's
`char::is_whitespace`, which `str::trim` strips from both ends. -/
def rust_whitespace : List Char :=
  [' ', '\t', '\n', '\x0B', '\x0C', '\r', '\u0085', '\u00A0', '\u1680',
   '\u2000', '\u2001', '\u2002', '\u2003', '\u2004', '\u2005', '\u2006',
   '\u2007', '\u2008', '\u2009', '\u200A', '\u2028', '\u2029', '\u202F',
   '\u205F', '\u3000']

/-- Rust `char::is_whitespace`. -/
def is_rust_whitespace (c : Char) : Bool :=
  rust_whitespace.contains c

/-- Rust `str::trim`: remove leading and trailing whitespace. -/
def trim (s : Str) : Str :=
  (s.dropWhile is_rust_whitespace).rdropWhile is_rust_whitespace

/-- Rust `str::split(',')`: the (always non-empty) list of comma-separated
pieces, keeping empty pieces (`"".split(',') == [""]`,
`",".split(',') == ["", ""]`). -/
def split_comma : Str → List Str
  | [] => [[]]
  | c :: cs =>
    if c = ',' then [] :: split_comma cs
    else
      match split_comma cs with
      | [] => [[c]]
      | t :: ts => (c :: t) :: ts

/-- Rust `u64::from_str`: an optional leading `+`, then one or more ASCII
digits, and the value must fit in a `u64`; anything else is a parse error
(`none`). -/
def parse_u64 (s : Str) : Option Nat :=
  let digits := match s with
    | '+' :: rest => rest
    | _ => s
  if digits.isEmpty then none
  else if digits.all Char.isDigit then
    let v := digits.foldl (fun acc c => acc * 10 + (c.toNat - 48)) 0
    if v < 2 ^ 64 then some v else none
  else none

/-- Rust `str::len`: the length of the string in UTF-8 bytes (this is what
`self.title.len()` measures in the source). -/
def rust_len (s : Str) : Nat :=
  (s.map Char.utf8Size).sum

/-- `ServiceError` from `src/service/src/error.rs`. -/
inductive ServiceError where
  | validation : String → ServiceError
  | notFound : String → Int → ServiceError
  | internal : String → ServiceError
deriving DecidableEq, Repr

/-- `SortDirection` from `src/model/src/dto/pagination.rs`. -/
inductive SortDirection where
  | ascending
  | descending
deriving DecidableEq, Repr

/-- `SortFieldName` from `src/model/src/dto/pagination.rs`. -/
inductive SortFieldName where
  | id
  | title
  | content
  | createdAt
  | updatedAt
deriving DecidableEq, Repr

/-- `SortFieldName::ALL`: all variants in declaration order. -/
def SortFieldName.ALL : List SortFieldName :=
  [.id, .title, .content, .createdAt, .updatedAt]

/-- The `Display` impl for `SortFieldName`. -/
def SortFieldName.display : SortFieldName → String
  | .id => "id"
  | .title => "title"
  | .content => "content"
  | .createdAt => "createdAt"
  | .updatedAt => "updatedAt"

/-- `SortFieldName::all_names()`: the comma-separated list of the valid
field names. -/
def SortFieldName.all_names : String :=
  String.intercalate ", " (SortFieldName.ALL.map SortFieldName.display)

/-- The message produced by the `FromStr` impl for an unknown field name. -/
def unknown_field_message (s : Str) : String :=
  "Unknown \x27orderBy\x27 field: \x27" ++ String.mk s ++ "\x27. Valid fields: "
    ++ SortFieldName.all_names

/-- The `FromStr` impl for `SortFieldName`
(`src/model/src/dto/pagination.rs`, lines 56-69): the five camelCase
spellings are accepted case-sensitively, anything else is an error naming
the offending text and listing the valid names. -/
def SortFieldName.from_str (s : Str) : Except String SortFieldName :=
  if s = "id".toList then .ok .id
  else if s = "title".toList then .ok .title
  else if s = "content".toList then .ok .content
  else if s = "createdAt".toList then .ok .createdAt
  else if s = "updatedAt".toList then .ok .updatedAt
  else .error (unknown_field_message s)

/-- `SortField` from `src/model/src/dto/pagination.rs`. -/
structure SortField where
  name : SortFieldName
  direction : SortDirection
deriving DecidableEq, Repr

/-- `SearchParams` from `src/model/src/dto/pagination.rs`: the raw query
parameters plus the fields the service layer fills in during validation.
The defaults are the Rust `Default` values. -/
structure SearchParams where
  title : Option Str := none
  content : Option Str := none
  page : Option Str := none
  size : Option Str := none
  orderBy : Option Str := none
  parsedPage : Nat := 0
  parsedSize : Nat := 0
  sortFields : List SortField := []
deriving DecidableEq, Repr

/-- `CreateNoteRequest` from `src/model/src/dto/note.rs`. -/
structure CreateNoteRequest where
  title : Str
  content : Str
deriving DecidableEq, Repr

/-- `UpdateNoteRequest` from `src/model/src/dto/note.rs`. -/
structure UpdateNoteRequest where
  title : Option Str
  content : Option Str
deriving DecidableEq, Repr

/-! ## Service-layer validation (`src/service/src/note.rs`) -/

/-- `MAX_TITLE_LEN` from `src/service/src/note.rs`. -/
def MAX_TITLE_LEN : Nat := 255

/-- `DEFAULT_PAGE` from `src/service/src/note.rs`. -/
def DEFAULT_PAGE : Nat := 1

/-- `DEFAULT_SIZE` from `src/service/src/note.rs`. -/
def DEFAULT_SIZE : Nat := 20

/-- `MAX_SIZE` from `src/service/src/note.rs`. -/
def MAX_SIZE : Nat := 100

/-- `validate_string_filter` (lines 32-43): a present filter value must not
be blank. -/
def validate_string_filter (raw : Option Str) (name : String) :
    Except ServiceError Unit :=
  match raw with
  | none => .ok ()
  | some value =>
    if (trim value).isEmpty then
      .error (.validation ("Parameter \x27" ++ name ++ "\x27 must not be blank"))
    else .ok ()

/-- `validate_page` (lines 50-66): absent defaults to `DEFAULT_PAGE`; a
present value is trimmed, rejected when blank or unparseable, and floored
at `1` via `value.max(1)`. -/
def validate_page (raw : Option Str) : Except ServiceError Nat :=
  match raw with
  | none => .ok DEFAULT_PAGE
  | some raw =>
    let trimmed := trim raw
    if trimmed.isEmpty then
      .error (.validation "Parameter \x27page\x27 must not be blank")
    else
      match parse_u64 trimmed with
      | some value => .ok (max value 1)
      | none =>
        .error (.validation ("Parameter \x27page\x27 must be a positive integer, got \x27"
          ++ String.mk trimmed ++ "\x27"))

/-- `validate_size` (lines 73-96): absent defaults to `DEFAULT_SIZE`; a
present value is trimmed, rejected when blank, unparseable, or above
`MAX_SIZE`; no lower floor is applied. -/
def validate_size (raw : Option Str) : Except ServiceError Nat :=
  match raw with
  | none => .ok DEFAULT_SIZE
  | some raw =>
    let trimmed := trim raw
    if trimmed.isEmpty then
      .error (.validation "Parameter \x27size\x27 must not be blank")
    else
      match parse_u64 trimmed with
      | some value =>
        if value > MAX_SIZE then
          .error (.validation "Parameter \x27size\x27 must not exceed 100")
        else .ok value
      | none =>
        .error (.validation ("Parameter \x27size\x27 must be a positive integer, got \x27"
          ++ String.mk trimmed ++ "\x27"))

/-- Rust `str::strip_prefix(char)`: the rest of the string when it starts
with the given character, `None` otherwise. -/
def strip_prefix (c : Char) : Str → Option Str
  | [] => none
  | x :: xs => if x = c then some xs else none

/-- The `(direction, name)` destructuring inside `validate_order_by`'s
token closure: the direction taken from an optional leading `-`. -/
def sort_token_direction (token : Str) : SortDirection :=
  match strip_prefix '-' token with
  | some _ => .descending
  | none => .ascending

/-- The `(direction, name)` destructuring inside `validate_order_by`'s
token closure: the field-name text after stripping a leading `-`, else a
leading `+` (`strip_prefix('+').unwrap_or(token)`). -/
def sort_token_name (token : Str) : Str :=
  match strip_prefix '-' token with
  | some rest => rest
  | none =>
    match strip_prefix '+' token with
    | some rest => rest
    | none => token

/-- The per-token body of `validate_order_by` (lines 113-126): parse the
stripped name, wrapping an unknown-field message in
`ServiceError::Validation`. -/
def parse_sort_token (token : Str) : Except ServiceError SortField :=
  match SortFieldName.from_str (sort_token_name token) with
  | .error e => .error (.validation e)
  | .ok name => .ok ⟨name, sort_token_direction token⟩

/-- The token pipeline of `validate_order_by` (lines 109-112): split on
`,`, trim each piece, drop the empty ones. -/
def order_by_tokens (raw : Str) : List Str :=
  ((split_comma raw).map trim).filter (fun t => !t.isEmpty)

/-- `collect::<Result<Vec<SortField>, ServiceError>>()` over the token
list: left-to-right, stopping at the first error. -/
def collect_sort_fields : List Str → Except ServiceError (List SortField)
  | [] => .ok []
  | t :: ts =>
    match parse_sort_token t with
    | .error e => .error e
    | .ok f =>
      match collect_sort_fields ts with
      | .error e => .error e
      | .ok fs => .ok (f :: fs)

/-- `validate_order_by` (lines 104-138): absent yields `none`; otherwise
tokenise, parse every token, and reject an empty field list. -/
def validate_order_by (raw : Option Str) :
    Except ServiceError (Option (List SortField)) :=
  match raw with
  | none => .ok none
  | some raw =>
    match collect_sort_fields (order_by_tokens raw) with
    | .error e => .error e
    | .ok fields =>
      if fields.isEmpty then
        .error (.validation ("Parameter \x27orderBy\x27 must contain at least one field. Valid fields: "
          ++ SortFieldName.all_names))
      else .ok (some fields)

/-- `impl Validate for CreateNoteRequest` (lines 185-206): title must be
non-blank and at most `MAX_TITLE_LEN` *bytes* (`self.title.len()`), content
must be non-blank. -/
def CreateNoteRequest.validate (r : CreateNoteRequest) :
    Except ServiceError Unit :=
  if (trim r.title).isEmpty then
    .error (.validation "Field \x27title\x27 must not be empty")
  else if rust_len r.title > MAX_TITLE_LEN then
    .error (.validation "Field \x27title\x27 must be at most 255 characters")
  else if (trim r.content).isEmpty then
    .error (.validation "Field \x27content\x27 must not be empty")
  else .ok ()

/-- The title branch of `impl Validate for UpdateNoteRequest`
(lines 210-222): a present title must be non-blank and at most
`MAX_TITLE_LEN` bytes. -/
def check_update_title (title : Option Str) : Except ServiceError Unit :=
  match title with
  | none => .ok ()
  | some title =>
    if (trim title).isEmpty then
      .error (.validation "Field \x27title\x27 must not be empty")
    else if rust_len title > MAX_TITLE_LEN then
      .error (.validation "Field \x27title\x27 must be at most 255 characters")
    else .ok ()

/-- The content branch of `impl Validate for UpdateNoteRequest`
(lines 224-229): a present content must be non-blank. -/
def check_update_content (content : Option Str) : Except ServiceError Unit :=
  match content with
  | none => .ok ()
  | some content =>
    if (trim content).isEmpty then
      .error (.validation "Field \x27content\x27 must not be empty")
    else .ok ()

/-- `impl Validate for UpdateNoteRequest` (lines 208-233): title checks
first (when present), then content checks (when present). -/
def UpdateNoteRequest.validate (r : UpdateNoteRequest) :
    Except ServiceError Unit :=
  match check_update_title r.title with
  | .error e => .error e
  | .ok _ => check_update_content r.content

/-- `impl Validate for SearchParams` (lines 235-246): title filter, content
filter, page, size, then orderBy, each aborting on its first error; the
parsed results are stored back into the params (the Rust `&mut self`
becomes returning the updated value). -/
def SearchParams.validate (p : SearchParams) :
    Except ServiceError SearchParams :=
  match validate_string_filter p.title "title" with
  | .error e => .error e
  | .ok _ =>
    match validate_string_filter p.content "content" with
    | .error e => .error e
    | .ok _ =>
      match validate_page p.page with
      | .error e => .error e
      | .ok pg =>
        match validate_size p.size with
        | .error e => .error e
        | .ok sz =>
          match validate_order_by p.orderBy with
          | .error e => .error e
          | .ok sf =>
            .ok { p with parsedPage := pg, parsedSize := sz,
                         sortFields := sf.getD [] }

/-! ## Repository layer (`src/repository/src/note.rs`, `sort.rs`) -/

/-- `note::Column` (the SeaORM column enum for the `notes` table). -/
inductive Column where
  | id
  | title
  | content
  | createdAt
  | updatedAt
deriving DecidableEq, Repr

/-- SeaORM `Order`. -/
inductive Order where
  | asc
  | desc
deriving DecidableEq, Repr

/-- `impl IntoColumn for SortFieldName` (`src/repository/src/sort.rs`,
lines 26-36). -/
def SortFieldName.into_column : SortFieldName → Column
  | .id => .id
  | .title => .title
  | .content => .content
  | .createdAt => .createdAt
  | .updatedAt => .updatedAt

/-- `impl IntoOrder for SortDirection` (`src/repository/src/sort.rs`,
lines 38-45). -/
def SortDirection.into_order : SortDirection → Order
  | .ascending => .asc
  | .descending => .desc

/-- A filter predicate added by `build_note_query`: a substring `contains`
condition on one column. -/
inductive Filter where
  | titleContains : Str → Filter
  | contentContains : Str → Filter
deriving DecidableEq, Repr

/-- The pure shape of the SeaORM `Select<note::Entity>` that
`build_note_query` assembles: the conjunction of filters and the `ORDER BY`
list in the order the query methods were applied. -/
structure NoteQuery where
  filters : List Filter := []
  orderBy : List (Column × Order) := []
deriving DecidableEq, Repr

/-- `NoteRepositoryImpl::build_note_query` (`src/repository/src/note.rs`,
lines 76-96): optional title and content `contains` filters, then either
the `Id` ascending fallback (empty sort list) or each caller-supplied sort
field appended in order. -/
def build_note_query (p : SearchParams) : NoteQuery :=
  let query : NoteQuery := {}
  let query := match p.title with
    | some t => { query with filters := query.filters ++ [.titleContains t] }
    | none => query
  let query := match p.content with
    | some c => { query with filters := query.filters ++ [.contentContains c] }
    | none => query
  if p.sortFields.isEmpty then
    { query with orderBy := [(Column.id, Order.asc)] }
  else
    p.sortFields.foldl
      (fun q f =>
        { q with orderBy := q.orderBy ++ [(f.name.into_column, f.direction.into_order)] })
      query

/-- Rust `u64::div_ceil`: `self / rhs` plus one when the remainder is
non-zero.  (Rust panics on `rhs == 0`; every call site passes a validated
`size`, and the claims about it assume `1 ≤ size`.) -/
def u64_div_ceil (a b : Nat) : Nat :=
  a / b + if a % b = 0 then 0 else 1

/-- `PageInfo` from `src/model/src/dto/pagination.rs`. -/
structure PageInfo where
  size : Nat
  number : Nat
  totalElements : Nat
  totalPages : Nat
deriving DecidableEq, Repr

/-- `NoteRepositoryImpl::build_page_info` (`src/repository/src/note.rs`,
lines 100-108). -/
def build_page_info (page size total : Nat) : PageInfo :=
  let totalPages := u64_div_ceil total size
  { size := size
    number := if totalPages = 0 then 0 else page
    totalElements := total
    totalPages := totalPages }

/-- The `notes` row (`src/model/src/entity/note.rs`), with the two UTC
timestamps embedded as abstract ticks. -/
structure NoteModel where
  id : Int
  title : Str
  content : Str
  createdAt : Nat
  updatedAt : Nat
deriving DecidableEq, Repr

/-- `NoteRepositoryImpl::apply_update_fields` (`src/repository/src/note.rs`,
lines 126-136): stamp `updated_at` with the current time unconditionally,
then overwrite `title` and `content` only when the request carries them.
`now` stands for the `Utc::now()` call. -/
def apply_update_fields (now : Nat) (active : NoteModel)
    (req : UpdateNoteRequest) : NoteModel :=
  let active := { active with updatedAt := now }
  let active := match req.title with
    | some title => { active with title := title }
    | none => active
  match req.content with
  | some content => { active with content := content }
  | none => active

/-! ## Spec-side definitions

`order_by_spec` restates claim C2's wording: split on `,`, trim each
token, drop empty tokens, map a leading `-` to descending and a leading
`+` or no prefix to ascending, look the remaining name up in the
whitelist, and fail (`none`) when a name is unknown or no token is left.
It is compared with `validate_order_by` (translated from the source)
in the C2 theorem. -/

/-- The whitelist lookup, as the claim words it: the five case-sensitive
names, anything else unknown. -/
def lookup_field_name (s : Str) : Option SortFieldName :=
  if s = "id".toList then some .id
  else if s = "title".toList then some .title
  else if s = "content".toList then some .content
  else if s = "createdAt".toList then some .createdAt
  else if s = "updatedAt".toList then some .updatedAt
  else none

/-- Claim C2's token mapping: a leading `-` means descending, a leading
`+` or no prefix means ascending, and the remaining text must be a
whitelisted name. -/
def spec_token_field (t : Str) : Option SortField :=
  if t.head? = some '-' then
    (lookup_field_name t.tail).map (fun n => ⟨n, .descending⟩)
  else if t.head? = some '+' then
    (lookup_field_name t.tail).map (fun n => ⟨n, .ascending⟩)
  else
    (lookup_field_name t).map (fun n => ⟨n, .ascending⟩)

/-- Claim C2's per-token traversal: every token must map to a field. -/
def spec_collect : List Str → Option (List SortField)
  | [] => some []
  | t :: ts =>
    match spec_token_field t, spec_collect ts with
    | some f, some fs => some (f :: fs)
    | _, _ => none

/-- Claim C2's description of a present `orderBy` value: the parsed fields
in token order, or `none` when a token is unknown or no token remains
after dropping empties. -/
def order_by_spec (raw : Str) : Option (List SortField) :=
  match spec_collect (order_by_tokens raw) with
  | none => none
  | some [] => none
  | some fs => some fs

/-- The success projection of an `Except`, used to compare the code's
result (which carries error messages) with the spec-side `Option`. -/
def except_ok {ε α : Type} : Except ε α → Option α
  | .ok a => some a
  | .error _ => none

/-- The string whitelist of valid `orderBy` field names, in declaration
order. -/
def valid_name_strs : List Str :=
  ["id".toList, "title".toList, "content".toList, "createdAt".toList,
   "updatedAt".toList]

/-! ## Helper lemmas -/

/-- `u64::div_ceil` agrees with the usual `(a + b - 1) / b` form of the
ceiling of `a / b` for positive `b`. -/
theorem u64_div_ceil_eq (a b : Nat) (hb : 1 ≤ b) :
    u64_div_ceil a b = (a + b - 1) / b := by
  have hb0 : 0 < b := hb
  unfold u64_div_ceil
  set q := a / b with hq
  set r := a % b with hr
  have hm : b * q + r = a := Nat.div_add_mod a b
  have hlt : r < b := Nat.mod_lt _ hb0
  have hb1 : b - 1 < b := by omega
  by_cases h : r = 0
  · rw [if_pos h, ← hm, h]
    simp only [Nat.add_zero]
    rw [Nat.add_sub_assoc hb, Nat.mul_add_div hb0, Nat.div_eq_of_lt hb1,
      Nat.add_zero]
  · rw [if_neg h, ← hm]
    have e1 : b * q + r + b - 1 = b * (q + 1) + (r - 1) := by
      rw [Nat.mul_add, Nat.mul_one]
      omega
    rw [e1, Nat.mul_add_div hb0, Nat.div_eq_of_lt (by omega), Nat.add_zero]

/-- Dropping a leading run of `p`-elements is stable under removing a
trailing run afterwards: `rdropWhile` only shortens the list from the
right, so the head (which already fails `p`) is untouched. -/
theorem dropWhile_rdropWhile (p : Char → Bool) (x : Str)
    (hx : x.dropWhile p = x) :
    (x.rdropWhile p).dropWhile p = x.rdropWhile p := by
  rcases hpre : x.rdropWhile p with _ | ⟨c, t⟩
  · rfl
  · have hpref : x.rdropWhile p <+: x := List.rdropWhile_prefix p x
    rw [hpre] at hpref
    obtain ⟨rest, hrest⟩ := hpref
    have hxc : x = c :: (t ++ rest) := by rw [← hrest]; simp
    cases hcb : p c with
    | true =>
      exfalso
      rw [hxc, List.dropWhile_cons, hcb] at hx
      simp only [if_true] at hx
      have hlen := congrArg List.length hx
      have hle : ((t ++ rest).dropWhile p).length ≤ (t ++ rest).length :=
        (List.dropWhile_suffix p).sublist.length_le
      simp only [List.length_cons] at hlen
      omega
    | false =>
      rw [List.dropWhile_cons, hcb]
      simp

/-- Rust's `str::trim` is idempotent. -/
theorem trim_idem (s : Str) : trim (trim s) = trim s := by
  unfold trim
  rw [dropWhile_rdropWhile is_rust_whitespace (s.dropWhile is_rust_whitespace)
    (List.dropWhile_idempotent _ _), List.rdropWhile_idempotent]

/-- The `ORDER BY` list accumulated by the sort-field fold of
`build_note_query`. -/
theorem foldl_orderBy (q : NoteQuery) (fs : List SortField) :
    (fs.foldl
      (fun q f =>
        { q with orderBy := q.orderBy ++ [(f.name.into_column, f.direction.into_order)] })
      q).orderBy
    = q.orderBy ++ fs.map (fun f => (f.name.into_column, f.direction.into_order)) := by
  induction fs generalizing q with
  | nil => simp
  | cons f fs ih => simp [ih]

/-- `validate_page` on a present value, unfolded once. -/
theorem validate_page_some (raw : Str) :
    validate_page (some raw)
      = (if (trim raw).isEmpty then
          .error (.validation "Parameter \x27page\x27 must not be blank")
        else
          match parse_u64 (trim raw) with
          | some value => .ok (max value 1)
          | none =>
            .error (.validation ("Parameter \x27page\x27 must be a positive integer, got \x27"
              ++ String.mk (trim raw) ++ "\x27"))) := rfl

/-- `validate_size` on a present value, unfolded once. -/
theorem validate_size_some (raw : Str) :
    validate_size (some raw)
      = (if (trim raw).isEmpty then
          .error (.validation "Parameter \x27size\x27 must not be blank")
        else
          match parse_u64 (trim raw) with
          | some value =>
            if value > MAX_SIZE then
              .error (.validation "Parameter \x27size\x27 must not exceed 100")
            else .ok value
          | none =>
            .error (.validation ("Parameter \x27size\x27 must be a positive integer, got \x27"
              ++ String.mk (trim raw) ++ "\x27"))) := rfl

/-- The empty string never parses as a `u64`. -/
theorem parse_u64_nil : parse_u64 [] = none := rfl

/-- `validate_order_by` on a present value, unfolded once. -/
theorem validate_order_by_some (raw : Str) :
    validate_order_by (some raw)
      = (match collect_sort_fields (order_by_tokens raw) with
        | .error e => .error e
        | .ok fields =>
          if fields.isEmpty then
            .error (.validation ("Parameter \x27orderBy\x27 must contain at least one field. Valid fields: "
              ++ SortFieldName.all_names))
          else .ok (some fields)) := rfl

/-! ## Claim theorems -/

/-- C1 (counterexample): at requested page 0 with one element and size 1,
`build_page_info` returns `number = 0` while `totalPages = 1`, so the
claimed equivalence "number == 0 iff total_pages == 0" is false as stated
for every page. -/
theorem C1_counterexample :
    (build_page_info 0 1 1).number = 0 ∧
    (build_page_info 0 1 1).totalPages = 1 ∧
    ¬ ((build_page_info 0 1 1).number = 0 ↔
        (build_page_info 0 1 1).totalPages = 0) := by
  decide

/-- C1 (amended): for every page `p`, size `s ∈ [1, 100]` and total `t`,
`build_page_info p s t` has `totalPages = ceil(t / s)`,
`totalElements = t`, `size = s`, and `number = 0` when `totalPages = 0`
and `p` otherwise; for pages `p ≥ 1` (every page the validated pipeline
can produce) `number = 0` iff `totalPages = 0`. -/
theorem C1_build_page_info (p s t : Nat) (h1 : 1 ≤ s) (h2 : s ≤ 100) :
    (build_page_info p s t).totalPages = (t + s - 1) / s ∧
    (build_page_info p s t).totalElements = t ∧
    (build_page_info p s t).size = s ∧
    (build_page_info p s t).number
      = (if (build_page_info p s t).totalPages = 0 then 0 else p) ∧
    (1 ≤ p →
      ((build_page_info p s t).number = 0 ↔
        (build_page_info p s t).totalPages = 0)) := by
  refine ⟨u64_div_ceil_eq t s h1, rfl, rfl, rfl, ?_⟩
  intro hp
  show (if u64_div_ceil t s = 0 then 0 else p) = 0 ↔ u64_div_ceil t s = 0
  by_cases h : u64_div_ceil t s = 0
  · rw [if_pos h]
    simp [h]
  · rw [if_neg h]
    constructor
    · intro h0
      omega
    · intro h0
      exact absurd h0 h

/-- C1 (witness): the amended statement evaluated at page 2, size 3,
total 7. -/
theorem C1_build_page_info_witness :
    (build_page_info 2 3 7).totalPages = (7 + 3 - 1) / 3 ∧
    (build_page_info 2 3 7).totalElements = 7 ∧
    (build_page_info 2 3 7).size = 3 ∧
    (build_page_info 2 3 7).number
      = (if (build_page_info 2 3 7).totalPages = 0 then 0 else 2) ∧
    (1 ≤ 2 →
      ((build_page_info 2 3 7).number = 0 ↔
        (build_page_info 2 3 7).totalPages = 0)) :=
  C1_build_page_info 2 3 7 (by decide) (by decide)

/-- C3: `validate_page` defaults an absent value to 1, rejects a blank or
unparseable present value with a validation error, floors a parsed value
at 1 (so `"0"` yields 1), and every successful result is at least 1. -/
theorem C3_validate_page :
    validate_page none = .ok 1 ∧
    (∀ raw : Str, trim raw = [] →
      ∃ m, validate_page (some raw) = .error (.validation m)) ∧
    (∀ raw : Str, trim raw ≠ [] → parse_u64 (trim raw) = none →
      ∃ m, validate_page (some raw) = .error (.validation m)) ∧
    (∀ (raw : Str) (v : Nat), parse_u64 (trim raw) = some v →
      validate_page (some raw) = .ok (max v 1)) ∧
    (∀ (raw : Option Str) (v : Nat), validate_page raw = .ok v → 1 ≤ v) ∧
    validate_page (some ("0".toList)) = .ok 1 := by
  refine ⟨rfl, ?_, ?_, ?_, ?_, rfl⟩
  · intro raw h
    refine ⟨"Parameter \x27page\x27 must not be blank", ?_⟩
    rw [validate_page_some, h]
    rfl
  · intro raw h1 h2
    refine ⟨"Parameter \x27page\x27 must be a positive integer, got \x27"
      ++ String.mk (trim raw) ++ "\x27", ?_⟩
    rw [validate_page_some, if_neg (by simpa using h1), h2]
  · intro raw v h
    have h1 : trim raw ≠ [] := by
      intro hnil
      rw [hnil, parse_u64_nil] at h
      cases h
    rw [validate_page_some, if_neg (by simpa using h1), h]
  · intro raw v h
    cases raw with
    | none =>
      simp only [validate_page, DEFAULT_PAGE, Except.ok.injEq] at h
      omega
    | some s =>
      rw [validate_page_some] at h
      by_cases hb : (trim s).isEmpty
      · rw [if_pos hb] at h
        cases h
      · rw [if_neg hb] at h
        rcases hp : parse_u64 (trim s) with _ | w
        · rw [hp] at h
          cases h
        · rw [hp] at h
          simp only [Except.ok.injEq] at h
          omega

/-- C3 (witness): the hypothesis-bearing parts instantiated at the
concrete inputs `" "` (blank), `"abc"` (unparseable) and `"0"`
(parsed 0, floored). -/
theorem C3_validate_page_witness :
    (∃ m, validate_page (some (" ".toList)) = .error (.validation m)) ∧
    (∃ m, validate_page (some ("abc".toList)) = .error (.validation m)) ∧
    validate_page (some ("0".toList)) = .ok (max 0 1) :=
  ⟨C3_validate_page.2.1 (" ".toList) (by decide),
   C3_validate_page.2.2.1 ("abc".toList) (by decide) (by decide),
   C3_validate_page.2.2.2.1 ("0".toList) 0 (by decide)⟩

/-- C4: `validate_size` defaults an absent value to 20, rejects a blank or
unparseable present value, rejects a parsed value above 100 with a message
containing "must not exceed 100", accepts `"100"` as 100, and applies no
lower floor, so a parsed 0 passes through as 0. -/
theorem C4_validate_size :
    validate_size none = .ok 20 ∧
    (∀ raw : Str, trim raw = [] →
      ∃ m, validate_size (some raw) = .error (.validation m)) ∧
    (∀ raw : Str, trim raw ≠ [] → parse_u64 (trim raw) = none →
      ∃ m, validate_size (some raw) = .error (.validation m)) ∧
    (∀ (raw : Str) (v : Nat), parse_u64 (trim raw) = some v → 100 < v →
      validate_size (some raw)
        = .error (.validation "Parameter \x27size\x27 must not exceed 100")) ∧
    (∃ pre post : String,
      "Parameter \x27size\x27 must not exceed 100"
        = pre ++ "must not exceed 100" ++ post) ∧
    (∀ (raw : Str) (v : Nat), parse_u64 (trim raw) = some v → v ≤ 100 →
      validate_size (some raw) = .ok v) ∧
    validate_size (some ("100".toList)) = .ok 100 ∧
    validate_size (some ("0".toList)) = .ok 0 := by
  refine ⟨rfl, ?_, ?_, ?_, ⟨"Parameter \x27size\x27 ", "", by decide⟩, ?_, rfl, rfl⟩
  · intro raw h
    refine ⟨"Parameter \x27size\x27 must not be blank", ?_⟩
    rw [validate_size_some, h]
    rfl
  · intro raw h1 h2
    refine ⟨"Parameter \x27size\x27 must be a positive integer, got \x27"
      ++ String.mk (trim raw) ++ "\x27", ?_⟩
    rw [validate_size_some, if_neg (by simpa using h1), h2]
  · intro raw v h hv
    have h1 : trim raw ≠ [] := by
      intro hnil
      rw [hnil, parse_u64_nil] at h
      cases h
    rw [validate_size_some, if_neg (by simpa using h1), h]
    simp only [MAX_SIZE]
    rw [if_pos (by omega)]
  · intro raw v h hv
    have h1 : trim raw ≠ [] := by
      intro hnil
      rw [hnil, parse_u64_nil] at h
      cases h
    rw [validate_size_some, if_neg (by simpa using h1), h]
    simp only [MAX_SIZE]
    rw [if_neg (by omega)]

/-- C4 (witness): the hypothesis-bearing parts instantiated at `" "`
(blank), `"abc"` (unparseable), `"101"` (too large) and `"0"` (no lower
floor). -/
theorem C4_validate_size_witness :
    (∃ m, validate_size (some (" ".toList)) = .error (.validation m)) ∧
    (∃ m, validate_size (some ("abc".toList)) = .error (.validation m)) ∧
    validate_size (some ("101".toList))
      = .error (.validation "Parameter \x27size\x27 must not exceed 100") ∧
    validate_size (some ("0".toList)) = .ok 0 :=
  ⟨C4_validate_size.2.1 (" ".toList) (by decide),
   C4_validate_size.2.2.1 ("abc".toList) (by decide) (by decide),
   C4_validate_size.2.2.2.1 ("101".toList) 101 (by decide) (by decide),
   C4_validate_size.2.2.2.2.2.1 ("0".toList) 0 (by decide) (by decide)⟩

/-- C10: both `validate_page` and `validate_size` trim the raw value
before the blank check and the parse — so validating any raw string gives
the same result as validating its trimmed form, `" 5 "` is accepted as 5
by both, and the quoted value in the parse-error message is the trimmed
text, not the original raw string. -/
theorem C10_trim_before_parse :
    (∀ raw : Str, validate_page (some raw) = validate_page (some (trim raw))) ∧
    (∀ raw : Str, validate_size (some raw) = validate_size (some (trim raw))) ∧
    validate_page (some (" 5 ".toList)) = .ok 5 ∧
    validate_size (some (" 5 ".toList)) = .ok 5 ∧
    validate_page (some (" abc ".toList))
      = .error (.validation "Parameter \x27page\x27 must be a positive integer, got \x27abc\x27") ∧
    validate_size (some (" abc ".toList))
      = .error (.validation "Parameter \x27size\x27 must be a positive integer, got \x27abc\x27") := by
  refine ⟨?_, ?_, rfl, rfl, rfl, rfl⟩
  · intro raw
    rw [validate_page_some, validate_page_some, trim_idem]
  · intro raw
    rw [validate_size_some, validate_size_some, trim_idem]

/-- `SortFieldName::from_str`, phrased through the whitelist lookup. -/
theorem from_str_eq (s : Str) :
    SortFieldName.from_str s
      = (match lookup_field_name s with
        | some n => .ok n
        | none => .error (unknown_field_message s)) := by
  unfold SortFieldName.from_str lookup_field_name
  split_ifs <;> rfl

/-- `parse_sort_token`, phrased through the whitelist lookup and the
prefix destructuring. -/
theorem parse_sort_token_eq (t : Str) :
    parse_sort_token t
      = (match lookup_field_name (sort_token_name t) with
        | some n => .ok ⟨n, sort_token_direction t⟩
        | none =>
          .error (.validation (unknown_field_message (sort_token_name t)))) := by
  unfold parse_sort_token
  rw [from_str_eq]
  cases lookup_field_name (sort_token_name t) <;> rfl

/-- Per token, the code's parse agrees with claim C2's mapping. -/
theorem token_agree (t : Str) :
    except_ok (parse_sort_token t) = spec_token_field t := by
  rw [parse_sort_token_eq]
  rcases t with _ | ⟨c, rest⟩
  · cases h : lookup_field_name [] <;>
      simp [spec_token_field, sort_token_name, sort_token_direction,
        strip_prefix, except_ok, h]
  · by_cases h1 : c = '-'
    · subst h1
      cases h : lookup_field_name rest <;>
        simp [spec_token_field, sort_token_name, sort_token_direction,
          strip_prefix, except_ok, h]
    · by_cases h2 : c = '+'
      · subst h2
        cases h : lookup_field_name rest <;>
          simp [spec_token_field, sort_token_name, sort_token_direction,
            strip_prefix, except_ok, h1, h]
      · cases h : lookup_field_name (c :: rest) <;>
          simp [spec_token_field, sort_token_name, sort_token_direction,
            strip_prefix, except_ok, h1, h2, h]

/-- Over a token list, the code's short-circuiting `collect` agrees with
claim C2's traversal. -/
theorem collect_agree (ts : List Str) :
    except_ok (collect_sort_fields ts) = spec_collect ts := by
  induction ts with
  | nil => rfl
  | cons t ts ih =>
    unfold collect_sort_fields spec_collect
    have ht := token_agree t
    cases hp : parse_sort_token t with
    | error e =>
      rw [hp] at ht
      rw [← ht]
      rfl
    | ok f =>
      rw [hp] at ht
      rw [← ht]
      cases hc : collect_sort_fields ts with
      | error e =>
        rw [hc] at ih
        rw [← ih]
        rfl
      | ok fs =>
        rw [hc] at ih
        rw [← ih]
        rfl

/-- C2: `validate_order_by` realises claim C2's pipeline: the example
`"title,-createdAt"` parses to `[{Title, Ascending}, {CreatedAt,
Descending}]` in token order, `","` (only empty tokens) fails, and on
every present raw string the code's success value is exactly the
spec-side pipeline's result (split on `,`, trim, drop empties, map sign
prefixes, look names up, fail on empty or unknown). -/
theorem C2_validate_order_by :
    validate_order_by (some ("title,-createdAt".toList))
      = .ok (some [⟨.title, .ascending⟩, ⟨.createdAt, .descending⟩]) ∧
    (∃ e, validate_order_by (some (",".toList)) = .error e) ∧
    (∀ raw : Str,
      except_ok (validate_order_by (some raw)) = (order_by_spec raw).map some) := by
  refine ⟨rfl, ⟨.validation ("Parameter \x27orderBy\x27 must contain at least one field. Valid fields: "
    ++ SortFieldName.all_names), rfl⟩, ?_⟩
  intro raw
  rw [validate_order_by_some]
  unfold order_by_spec
  have hc2 := collect_agree (order_by_tokens raw)
  cases hc : collect_sort_fields (order_by_tokens raw) with
  | error e =>
    rw [hc] at hc2
    rw [← hc2]
    rfl
  | ok fields =>
    rw [hc] at hc2
    rw [← hc2]
    cases fields with
    | nil => rfl
    | cons f fs => rfl

set_option maxRecDepth 8000 in
/-- C5: the code evaluated at the failing input.  A title of 128 copies of
the two-byte character `é` has 128 characters (within the claimed
255-character limit) and is not blank, yet both the create validator and
the update title check reject it, because the source's `title.len()`
measures 256 UTF-8 bytes, which exceeds `MAX_TITLE_LEN = 255`. -/
theorem C5_title_length_bytes :
    (List.replicate 128 'é').length = 128 ∧
    (trim (List.replicate 128 'é')).isEmpty = false ∧
    rust_len (List.replicate 128 'é') = 256 ∧
    CreateNoteRequest.validate ⟨List.replicate 128 'é', "body".toList⟩
      = .error (.validation "Field \x27title\x27 must be at most 255 characters") ∧
    check_update_title (some (List.replicate 128 'é'))
      = .error (.validation "Field \x27title\x27 must be at most 255 characters") :=
  ⟨rfl, rfl, rfl, rfl, rfl⟩

/-- An unknown name (one outside the whitelist) makes
`SortFieldName::from_str` fail with the unknown-field message. -/
theorem from_str_unknown (name : Str) (h : name ∉ valid_name_strs) :
    SortFieldName.from_str name = .error (unknown_field_message name) := by
  simp only [valid_name_strs, List.mem_cons, List.not_mem_nil, or_false,
    not_or] at h
  obtain ⟨h1, h2, h3, h4, h5⟩ := h
  unfold SortFieldName.from_str
  rw [if_neg h1, if_neg h2, if_neg h3, if_neg h4, if_neg h5]

/-- A token whose stripped name is unknown makes `parse_sort_token` fail
with the unknown-field message wrapped in `ServiceError::Validation`. -/
theorem parse_sort_token_unknown (token : Str)
    (h : sort_token_name token ∉ valid_name_strs) :
    parse_sort_token token
      = .error (.validation (unknown_field_message (sort_token_name token))) := by
  unfold parse_sort_token
  rw [from_str_unknown _ h]

/-- The short-circuiting collect fails with the unknown-field message of
the first token that has one, provided every earlier token parses. -/
theorem collect_unknown (pre : List Str) (bad : Str) (rest : List Str)
    (hpre : ∀ t ∈ pre, ∃ f, parse_sort_token t = .ok f)
    (hbad : sort_token_name bad ∉ valid_name_strs) :
    collect_sort_fields (pre ++ bad :: rest)
      = .error (.validation (unknown_field_message (sort_token_name bad))) := by
  induction pre with
  | nil =>
    rw [List.nil_append]
    unfold collect_sort_fields
    rw [parse_sort_token_unknown bad hbad]
  | cons p pre ih =>
    obtain ⟨f, hf⟩ := hpre p (List.mem_cons_self p pre)
    have ih2 := ih (fun t ht => hpre t (List.mem_cons_of_mem p ht))
    rw [List.cons_append]
    unfold collect_sort_fields
    rw [hf, ih2]

/-- C6 (counterexample): for the token `bogus` the code's message is
"Unknown 'orderBy' field: 'bogus'. Valid fields: ...", which differs from
the message text the claim states ("Unknown sort field: '...'"). -/
theorem C6_counterexample :
    validate_order_by (some ("bogus".toList))
      = .error (.validation "Unknown \x27orderBy\x27 field: \x27bogus\x27. Valid fields: id, title, content, createdAt, updatedAt") ∧
    "Unknown \x27orderBy\x27 field: \x27bogus\x27. Valid fields: id, title, content, createdAt, updatedAt"
      ≠ "Unknown sort field: \x27bogus\x27. Valid fields: id, title, content, createdAt, updatedAt" :=
  ⟨rfl, by decide⟩

/-- C6 (amended): a token whose stripped field name is outside the
whitelist `{id, title, content, createdAt, updatedAt}` (case-sensitive)
fails validation with the message "Unknown 'orderBy' field: '{name}'.
Valid fields: id, title, content, createdAt, updatedAt", naming the
offending name and listing all five valid field names; the failure
propagates through the token collect (first such token wins) and through
`validate_order_by`, as at `orderBy = "bogus"`. -/
theorem C6_unknown_sort_field :
    (∀ name : Str, name ∉ valid_name_strs →
      SortFieldName.from_str name = .error (unknown_field_message name)) ∧
    (∀ token : Str, sort_token_name token ∉ valid_name_strs →
      parse_sort_token token
        = .error (.validation (unknown_field_message (sort_token_name token)))) ∧
    (∀ (pre : List Str) (bad : Str) (rest : List Str),
      (∀ t ∈ pre, ∃ f, parse_sort_token t = .ok f) →
      sort_token_name bad ∉ valid_name_strs →
      collect_sort_fields (pre ++ bad :: rest)
        = .error (.validation (unknown_field_message (sort_token_name bad)))) ∧
    unknown_field_message ("bogus".toList)
      = "Unknown \x27orderBy\x27 field: \x27bogus\x27. Valid fields: id, title, content, createdAt, updatedAt" ∧
    validate_order_by (some ("bogus".toList))
      = .error (.validation (unknown_field_message ("bogus".toList))) :=
  ⟨from_str_unknown, parse_sort_token_unknown, collect_unknown, by decide, rfl⟩

/-- C6 (witness): the amended statement's first part instantiated at the
concrete unknown name `bogus`. -/
theorem C6_unknown_sort_field_witness :
    SortFieldName.from_str ("bogus".toList)
      = .error (unknown_field_message ("bogus".toList)) :=
  C6_unknown_sort_field.1 ("bogus".toList) (by decide)

/-- C7: validation is first-failure-wins in a fixed order.  For
`SearchParams`: title filter, then content filter, then page, then size,
then orderBy — whenever a check fails and every earlier check passed, its
error is the overall result; in particular, with a blank title *and* a
non-numeric size the title error is returned.  For `UpdateNoteRequest`:
the title checks run before the content checks. -/
theorem C7_validation_order :
    (∀ (p : SearchParams) (e : ServiceError),
      validate_string_filter p.title "title" = .error e →
      SearchParams.validate p = .error e) ∧
    (∀ (p : SearchParams) (e : ServiceError),
      validate_string_filter p.title "title" = .ok () →
      validate_string_filter p.content "content" = .error e →
      SearchParams.validate p = .error e) ∧
    (∀ (p : SearchParams) (e : ServiceError),
      validate_string_filter p.title "title" = .ok () →
      validate_string_filter p.content "content" = .ok () →
      validate_page p.page = .error e →
      SearchParams.validate p = .error e) ∧
    (∀ (p : SearchParams) (e : ServiceError) (pg : Nat),
      validate_string_filter p.title "title" = .ok () →
      validate_string_filter p.content "content" = .ok () →
      validate_page p.page = .ok pg →
      validate_size p.size = .error e →
      SearchParams.validate p = .error e) ∧
    (∀ (p : SearchParams) (e : ServiceError) (pg sz : Nat),
      validate_string_filter p.title "title" = .ok () →
      validate_string_filter p.content "content" = .ok () →
      validate_page p.page = .ok pg →
      validate_size p.size = .ok sz →
      validate_order_by p.orderBy = .error e →
      SearchParams.validate p = .error e) ∧
    SearchParams.validate { title := some (" ".toList), size := some ("x".toList) }
      = .error (.validation "Parameter \x27title\x27 must not be blank") ∧
    (∀ (r : UpdateNoteRequest) (e : ServiceError),
      check_update_title r.title = .error e →
      UpdateNoteRequest.validate r = .error e) ∧
    (∀ (r : UpdateNoteRequest) (e : ServiceError),
      check_update_title r.title = .ok () →
      check_update_content r.content = .error e →
      UpdateNoteRequest.validate r = .error e) := by
  refine ⟨?_, ?_, ?_, ?_, ?_, rfl, ?_, ?_⟩
  · intro p e h1
    unfold SearchParams.validate
    rw [h1]
  · intro p e h1 h2
    unfold SearchParams.validate
    rw [h1, h2]
  · intro p e h1 h2 h3
    unfold SearchParams.validate
    rw [h1, h2, h3]
  · intro p e pg h1 h2 h3 h4
    unfold SearchParams.validate
    rw [h1, h2, h3, h4]
  · intro p e pg sz h1 h2 h3 h4 h5
    unfold SearchParams.validate
    rw [h1, h2, h3, h4, h5]
  · intro r e h1
    unfold UpdateNoteRequest.validate
    rw [h1]
  · intro r e h1 h2
    unfold UpdateNoteRequest.validate
    rw [h1, h2]

/-- The `ORDER BY` list `build_note_query` produces, in closed form. -/
theorem build_note_query_orderBy (p : SearchParams) :
    (build_note_query p).orderBy
      = (if p.sortFields.isEmpty then [(Column.id, Order.asc)]
        else p.sortFields.map (fun f => (f.name.into_column, f.direction.into_order))) := by
  rcases hT : p.title with _ | t <;> rcases hC : p.content with _ | c <;>
    by_cases h : p.sortFields.isEmpty <;>
      simp [build_note_query, hT, hC, h, foldl_orderBy]

/-- C8: when the validated sort list is empty the built query orders by
ascending `Id`; when it is non-empty the sort criteria appear in the
query's `ORDER BY` list in exactly the caller's order (first field
primary, later fields as tie-breakers); and the list is never empty, so
the built query always carries an ordering. -/
theorem C8_query_order :
    (∀ p : SearchParams, p.sortFields = [] →
      (build_note_query p).orderBy = [(Column.id, Order.asc)]) ∧
    (∀ p : SearchParams, p.sortFields ≠ [] →
      (build_note_query p).orderBy
        = p.sortFields.map (fun f => (f.name.into_column, f.direction.into_order))) ∧
    (∀ p : SearchParams, (build_note_query p).orderBy ≠ []) := by
  refine ⟨?_, ?_, ?_⟩
  · intro p h
    rw [build_note_query_orderBy, h]
    rfl
  · intro p h
    rcases hs : p.sortFields with _ | ⟨f, fs⟩
    · exact absurd hs h
    · rw [build_note_query_orderBy, hs]
      rfl
  · intro p
    rw [build_note_query_orderBy]
    rcases hs : p.sortFields with _ | ⟨f, fs⟩
    · simp
    · simp

/-- C9: `apply_update_fields` (the transformation `update` applies to the
stored row inside its transaction) never changes `id` or `created_at`,
always stamps `updated_at` with the current time — even when both request
fields are absent — leaves a field unchanged when the request omits it,
and fully replaces it when the request carries it. -/
theorem C9_update_merge (active : NoteModel) (req : UpdateNoteRequest) (now : Nat) :
    (apply_update_fields now active req).id = active.id ∧
    (apply_update_fields now active req).createdAt = active.createdAt ∧
    (apply_update_fields now active req).updatedAt = now ∧
    (req.title = none → (apply_update_fields now active req).title = active.title) ∧
    (∀ t, req.title = some t → (apply_update_fields now active req).title = t) ∧
    (req.content = none → (apply_update_fields now active req).content = active.content) ∧
    (∀ c, req.content = some c → (apply_update_fields now active req).content = c) := by
  rcases req with ⟨title, content⟩
  rcases title with _ | t <;> rcases content with _ | c <;>
    simp [apply_update_fields]

/-- C9 (witness): the merge evaluated on a concrete stored row, with a
request carrying only a new title: `updated_at` is stamped, the title is
replaced, the content, `id` and `created_at` are untouched. -/
theorem C9_update_merge_witness :
    (apply_update_fields 7 ⟨1, "old".toList, "keep".toList, 3, 4⟩
        ⟨some ("new".toList), none⟩).id = 1 ∧
    (apply_update_fields 7 ⟨1, "old".toList, "keep".toList, 3, 4⟩
        ⟨some ("new".toList), none⟩).createdAt = 3 ∧
    (apply_update_fields 7 ⟨1, "old".toList, "keep".toList, 3, 4⟩
        ⟨some ("new".toList), none⟩).updatedAt = 7 ∧
    (apply_update_fields 7 ⟨1, "old".toList, "keep".toList, 3, 4⟩
        ⟨some ("new".toList), none⟩).title = "new".toList ∧
    (apply_update_fields 7 ⟨1, "old".toList, "keep".toList, 3, 4⟩
        ⟨some ("new".toList), none⟩).content = "keep".toList :=
  ⟨(C9_update_merge ⟨1, "old".toList, "keep".toList, 3, 4⟩
      ⟨some ("new".toList), none⟩ 7).1,
   (C9_update_merge ⟨1, "old".toList, "keep".toList, 3, 4⟩
      ⟨some ("new".toList), none⟩ 7).2.1,
   (C9_update_merge ⟨1, "old".toList, "keep".toList, 3, 4⟩
      ⟨some ("new".toList), none⟩ 7).2.2.1,
   (C9_update_merge ⟨1, "old".toList, "keep".toList, 3, 4⟩
      ⟨some ("new".toList), none⟩ 7).2.2.2.2.1 ("new".toList) rfl,
   (C9_update_merge ⟨1, "old".toList, "keep".toList, 3, 4⟩
      ⟨some ("new".toList), none⟩ 7).2.2.2.2.2.1 rfl⟩

end RustNotes
